import Mathlib

/-!
Verification development for the zai-glm-cli repository.

Shallow embedding of the parts of the source the claims concern:
  - `src/dist/mcp/transports.js` (transport construction and lifecycle),
  - `src/src/mcp/config.ts` (MCP server configuration loading),
  - the web-search tool (`WebSearchTool.search`),
  - `src/src/tools/batch-editor.ts` (batch editing, delete/insert operations),
  - the backup manager (`BackupManager.restoreBackup`).

JavaScript conventions used throughout the embedding:
  - an optional (possibly `undefined`) value is an `Option`;
  - the JS truthiness test `!s` on an optional string holds exactly when the
    value is `undefined` or the empty string;
  - a thrown exception is an `Except.error`;
  - a JS object used as a string map is a function `String → Option String`
    (object spread `{...a, ...b}` lets the later object win, which is the
    right-biased merge below).
-/

/-- JS truthiness test `!s` for an optional string: true when the value is
absent (`undefined`) or the empty string. -/
def strFalsy : Option String → Bool
  | none => true
  | some s => s == ""

/-- Transport configuration, from the `TransportConfig` interface in
`src/dist/mcp/transports.d.ts`: a discriminating `type` string (absent when the
configuration omits the kind) plus kind-specific optional fields.  The `env`
object is modelled as a string map. -/
structure TransportConfig where
  type : Option String
  command : Option String := none
  args : Option (List String) := none
  env : String → Option String := fun _ => none
  url : Option String := none
  headers : Option (List (String × String)) := none

/-- The four transport variants produced by `createTransport`; each value keeps
the configuration it was constructed from. -/
inductive MCPTransportVal where
  | stdio (config : TransportConfig)
  | http (config : TransportConfig)
  | sse (config : TransportConfig)
  | streamableHttp (config : TransportConfig)

/-- Constructor of `StdioTransport` (`transports.js` lines 9-14): throws
`Command is required for stdio transport` when `config.command` is falsy. -/
def mkStdioTransport (config : TransportConfig) : Except String MCPTransportVal :=
  if strFalsy config.command then
    .error "Command is required for stdio transport"
  else
    .ok (.stdio config)

/-- Constructor of `HttpTransport` (`transports.js` lines 51-57): throws
`URL is required for HTTP transport` when `config.url` is falsy. -/
def mkHttpTransport (config : TransportConfig) : Except String MCPTransportVal :=
  if strFalsy config.url then
    .error "URL is required for HTTP transport"
  else
    .ok (.http config)

/-- Constructor of `SSETransport` (`transports.js` lines 89-95): throws
`URL is required for SSE transport` when `config.url` is falsy. -/
def mkSSETransport (config : TransportConfig) : Except String MCPTransportVal :=
  if strFalsy config.url then
    .error "URL is required for SSE transport"
  else
    .ok (.sse config)

/-- Constructor of `StreamableHttpTransport` (`transports.js` lines 145-151):
throws `URL is required for streamable_http transport` when `config.url` is
falsy. -/
def mkStreamableHttpTransport (config : TransportConfig) : Except String MCPTransportVal :=
  if strFalsy config.url then
    .error "URL is required for streamable_http transport"
  else
    .ok (.streamableHttp config)

/-- Rendering of `config.type` inside the JS template literal of the default
branch: `undefined` when the field is absent. -/
def typeText : Option String → String
  | none => "undefined"
  | some s => s

/-- The `createTransport` factory (`transports.js` lines 193-206): a `switch`
on `config.type` dispatching to the four constructors, with a throwing
`default` branch for an absent or unrecognized kind. -/
def createTransport (config : TransportConfig) : Except String MCPTransportVal :=
  if config.type = some "stdio" then mkStdioTransport config
  else if config.type = some "http" then mkHttpTransport config
  else if config.type = some "sse" then mkSSETransport config
  else if config.type = some "streamable_http" then mkStreamableHttpTransport config
  else .error ("Unsupported transport type: " ++ typeText config.type)

/-- The environment object built by `StdioTransport.connect` (`transports.js`
lines 17-25): the spread `{...process.env, ...config.env, MCP_REMOTE_QUIET:
'1', MCP_REMOTE_SILENT: '1', DEBUG: '', NODE_ENV: 'production'}`.  Later
entries of an object spread win, so the four literal keys override both the
caller-specified and the inherited values, and the caller-specified values
override the inherited ones. -/
def stdioSpawnEnv (inherited cfgEnv : String → Option String) : String → Option String :=
  fun k =>
    if k = "MCP_REMOTE_QUIET" then some "1"
    else if k = "MCP_REMOTE_SILENT" then some "1"
    else if k = "DEBUG" then some ""
    else if k = "NODE_ENV" then some "production"
    else
      match cfgEnv k with
      | some v => some v
      | none => inherited k

/-- The channel handed to `StdioClientTransport` by `StdioTransport.connect`
(`transports.js` lines 26-30): the configured command, the configured args
defaulting to `[]`, and the merged environment. -/
structure StdioChannel where
  command : Option String
  args : List String
  env : String → Option String

/-- `StdioTransport.connect` (`transports.js` lines 15-32): builds the merged
environment and wires it, together with command and args, into the spawned
subprocess channel. -/
def stdioConnect (config : TransportConfig) (inherited : String → Option String) :
    StdioChannel :=
  { command := config.command
    args := config.args.getD []
    env := stdioSpawnEnv inherited config.env }

/-- Connection state of `HttpTransport`: the `connected` flag and whether an
axios client is held (`client?` field). -/
structure HttpTransportState where
  connected : Bool
  hasClient : Bool
deriving DecidableEq

/-- The channel returned by `HttpTransport.connect`: an `HttpClientTransport`
wrapping the axios client (its only state). -/
structure HttpChannel where
  baseURL : Option String
deriving DecidableEq

/-- `HttpTransport.connect` (`transports.js` lines 58-76): creates the axios
client, then probes `/health` inside a `try`; both the success branch and the
catch branch set `connected = true`, and the method returns a channel in every
case — it never throws.  The probe outcome is passed in as `health`. -/
def httpConnect (st : HttpTransportState) (config : TransportConfig)
    (health : Except String Unit) : Except String (HttpTransportState × HttpChannel) :=
  let st1 : HttpTransportState := { st with hasClient := true }
  let st2 : HttpTransportState :=
    match health with
    | .ok _ => { st1 with connected := true }
    | .error _ => { st1 with connected := true }
  .ok (st2, { baseURL := config.url })

/-- `HttpTransport.disconnect` (`transports.js` lines 77-80): clears the
connected flag and drops the client; nothing else is held. -/
def httpDisconnect (_st : HttpTransportState) : HttpTransportState :=
  { connected := false, hasClient := false }

/-- The error message thrown by `StreamableHttpClientTransport.send`
(`transports.js` line 190). -/
def streamableHttpIncompatMsg : String :=
  "StreamableHttpTransport: SSE endpoints are not compatible with MCP request-response pattern. GitHub Copilot MCP may require a different integration approach."

/-- `StreamableHttpClientTransport.send` (`transports.js` lines 185-191): logs
and then unconditionally throws the incompatibility error for every message —
it never returns a response. -/
def streamableHttpClientSend (_message : String) : Except String String :=
  .error streamableHttpIncompatMsg

/-- An MCP server entry (`MCPServerConfig` in `src/src/mcp/client.ts` as used
by `src/src/mcp/config.ts`): a name plus a transport configuration. -/
structure MCPServerConfig where
  name : String
  transport : TransportConfig

/-- The `MCPConfig` record returned by `loadMCPConfig`. -/
structure MCPConfig where
  servers : List MCPServerConfig

/-- `getZaiBuiltInServers` (`config.ts` lines 11-33): reads `ZAI_API_KEY`;
when it is falsy (absent or empty) returns no servers, otherwise the two
built-in SSE servers `zai-zread` and `zai-web-search` with the key spliced
into their URLs. -/
def getZaiBuiltInServers (zaiApiKey : Option String) : List MCPServerConfig :=
  if strFalsy zaiApiKey then []
  else
    let apiKey := zaiApiKey.getD ""
    [ { name := "zai-zread"
        transport :=
          { type := some "sse"
            url := some ("https://api.z.ai/api/mcp/zread/sse?Authorization=" ++ apiKey) } },
      { name := "zai-web-search"
        transport :=
          { type := some "sse"
            url := some ("https://api.z.ai/api/mcp/web_search/sse?Authorization=" ++ apiKey) } } ]

/-- `loadMCPConfig` (`config.ts` lines 39-55).  The project settings'
`mcpServers` record is passed in by its `Object.values` list `userServers`
(an absent record gives `[]`).  Built-in servers whose name a user server
already uses are filtered out (the `Set.has` test is a list-membership test),
and the user servers come first in the combined list. -/
def loadMCPConfig (userServers : List MCPServerConfig) (zaiApiKey : Option String) :
    MCPConfig :=
  let zaiServers := getZaiBuiltInServers zaiApiKey
  let userServerNames := userServers.map MCPServerConfig.name
  let filteredZaiServers := zaiServers.filter (fun s => !(userServerNames.contains s.name))
  { servers := userServers ++ filteredZaiServers }

/-- The web-search structured `data` payload (`web-search.js` lines 376-380). -/
structure WebSearchData where
  resultCount : Nat
  requestId : Option String

/-- A tool result (`ToolResult` in `src/types/index.ts` as produced by the
tools): success flag, optional output string, optional error string, optional
structured data. -/
structure ToolResult where
  success : Bool
  output : Option String := none
  error : Option String := none
  data : Option WebSearchData := none

/-- One search result object of the Z.ai Web Search API response
(`web-search.js` `formatSearchResults`). -/
structure SearchResult where
  title : String
  media : String
  publishDate : Option String
  link : String
  content : String

/-- Options accepted by `WebSearchTool.search` (`web-search.js` line 336);
every field may be omitted. -/
structure WebSearchOptions where
  searchEngine : Option String := none
  count : Option Int := none
  searchDomainFilter : Option String := none
  searchRecencyFilter : Option String := none
  contentSize : Option String := none

/-- The request body `WebSearchTool.search` sends to the API (`web-search.js`
lines 338-347): defaults applied by destructuring, and the result count
clamped by `Math.min(Math.max(count, 1), 50)`. -/
structure WebSearchRequestBody where
  searchEngine : String
  searchQuery : String
  count : Int
  searchRecencyFilter : String
  contentSize : String
  searchDomainFilter : Option String

/-- Building of the request body in `WebSearchTool.search` (`web-search.js`
lines 336-347): `search_engine` defaults to `search-prime`, `count` to 10
before clamping to `[1, 50]`, `search_recency_filter` to `noLimit`,
`content_size` to `medium`; the domain filter is only set when provided. -/
def buildWebSearchRequestBody (query : String) (o : WebSearchOptions) :
    WebSearchRequestBody :=
  { searchEngine := o.searchEngine.getD "search-prime"
    searchQuery := query
    count := min (max (o.count.getD 10) 1) 50
    searchRecencyFilter := o.searchRecencyFilter.getD "noLimit"
    contentSize := o.contentSize.getD "medium"
    searchDomainFilter := o.searchDomainFilter }

/-- Outcome of the `fetch` call inside `WebSearchTool.search`, as observed by
the surrounding code: the call (or anything inside the `try` block, such as
JSON parsing) threw; or it returned a non-ok HTTP status with a body text; or
it returned ok with a parsed body whose `search_result` field is possibly
absent. -/
inductive FetchOutcome where
  | throws (msg : String)
  | notOk (status : Nat) (body : String)
  | ok (searchResult : Option (List SearchResult)) (requestId : Option String)

/-- Formatting of one search result (`web-search.js` `formatSearchResults`
body, lines 393-407): numbered title, source with optional publish date, URL,
and the content truncated to 300 characters with an ellipsis. -/
def formatOneSearchResult (index : Nat) (r : SearchResult) : String :=
  "[" ++ toString (index + 1) ++ "] " ++ r.title ++ "\n" ++
  "    Source: " ++ r.media ++
    (match r.publishDate with
     | some d => " (" ++ d ++ ")"
     | none => "") ++ "\n" ++
  "    URL: " ++ r.link ++ "\n" ++
  "    Summary: " ++
    (if r.content.length > 300 then r.content.take 300 ++ "..." else r.content) ++
  "\n\n"

/-- `formatSearchResults` (`web-search.js` lines 393-407): header line, each
result formatted in order, and the accumulated output trimmed. -/
def formatSearchResults (results : List SearchResult) (query : String) : String :=
  let body := (results.enum.map (fun p => formatOneSearchResult p.1 p.2)).foldl
    (fun acc s => acc ++ s) ""
  ("Web search results for \"" ++ query ++ "\":\n\n" ++ body).trim

/-- `WebSearchTool.search` (`web-search.js` lines 328-389).  The API key is
checked first (a falsy key fails without calling out); then the request body
is built and the fetch outcome determines the result: a thrown exception is
caught into a failure result, a non-ok status yields a failure result naming
the status, an ok response with no results yields a success with a
`No results found` output, and an ok response with results yields a success
with the formatted output and the structured data. -/
def webSearch (apiKey : String) (query : String) (options : WebSearchOptions)
    (fetch : WebSearchRequestBody → FetchOutcome) : ToolResult :=
  if apiKey = "" then
    { success := false
      error := some "ZAI_API_KEY is required for web search. Set it in your environment." }
  else
    let requestBody := buildWebSearchRequestBody query options
    match fetch requestBody with
    | .throws msg =>
        { success := false, error := some ("Web search error: " ++ msg) }
    | .notOk status body =>
        { success := false
          error := some ("Web search failed (" ++ toString status ++ "): " ++ body) }
    | .ok searchResult requestId =>
        match searchResult with
        | none =>
            { success := true
              output := some ("No results found for \"" ++ query ++ "\"") }
        | some [] =>
            { success := true
              output := some ("No results found for \"" ++ query ++ "\"") }
        | some results =>
            { success := true
              output := some (formatSearchResults results query)
              data := some { resultCount := results.length, requestId := requestId } }

/-- Rendering of a possibly-undefined string in a JS template literal:
`undefined` when absent. -/
def jsTemplateOpt : Option String → String
  | none => "undefined"
  | some s => s

/-- A per-file result of a batch edit (`BatchEditResult` in
`batch-editor.ts` lines 41-47). -/
structure BatchEditResult where
  file : String
  success : Bool
  changes : Option Nat := none
  error : Option String := none
  preview : Option String := none

/-- The summary output string built by `formatResults` (`batch-editor.ts`
lines 484-506): header with aggregate counts, then the failed files with
their errors, then the modified files with their line-change counts. -/
def formatResultsOutput (results : List BatchEditResult) : String :=
  let successful := results.filter (fun r => r.success)
  let failed := results.filter (fun r => !r.success)
  let totalChanges := successful.foldl (fun sum r => sum + r.changes.getD 0) 0
  let filesChanged := (successful.filter (fun r => r.changes.getD 0 > 0)).length
  let header :=
    "Batch Edit Complete\n\n" ++
    "Summary:\n" ++
    "  Successful: " ++ toString successful.length ++ "/" ++ toString results.length ++
      " files\n" ++
    "  Files changed: " ++ toString filesChanged ++ "\n" ++
    "  Total line changes: " ++ toString totalChanges ++ "\n\n"
  let failedPart :=
    if failed.length > 0 then
      "Failed files:\n" ++
      (failed.map (fun f => "  - " ++ f.file ++ ": " ++ jsTemplateOpt f.error ++ "\n")).foldl
        (fun acc s => acc ++ s) "" ++ "\n"
    else ""
  let changedFiles := successful.filter (fun f => f.changes.getD 0 > 0)
  let modifiedPart :=
    if changedFiles.length > 0 then
      "Modified files:\n" ++
      (changedFiles.map
        (fun f => "  - " ++ f.file ++ " (" ++ toString (f.changes.getD 0) ++
          " lines changed)\n")).foldl (fun acc s => acc ++ s) ""
    else "No files were modified (no changes needed).\n"
  header ++ failedPart ++ modifiedPart

/-- `formatResults` (`batch-editor.ts` lines 478-512): builds the summary
output string and returns `success` exactly when no file failed.  The
returned `ToolResult` carries only `success` and `output` — no `error` field
is set on this path. -/
def formatResults (results : List BatchEditResult) : ToolResult :=
  { success := (results.filter (fun r => !r.success)).length == 0
    output := some (formatResultsOutput results) }

/-- Outcome of one run of `BatchEditorTool.batchEdit` as observed by the
method body: either something inside the `try` block threw, or the run
resolved a file list, obtained a confirmation decision, and (when confirmed)
produced the per-file results of `executeBatchOperation`. -/
inductive BatchRun where
  | throws (msg : String)
  | runs (files : List String) (confirmed : Bool) (results : List BatchEditResult)

/-- `BatchEditorTool.batchEdit` (`batch-editor.ts` lines 61-101): an empty
resolved file list fails with `No files found matching the criteria`; a
declined confirmation fails with `Batch edit cancelled by user`; a thrown
exception is caught into a `Batch edit failed` failure; otherwise the per-file
results are aggregated by `formatResults`. -/
def batchEdit (run : BatchRun) : ToolResult :=
  match run with
  | .throws msg =>
      { success := false, error := some ("Batch edit failed: " ++ msg) }
  | .runs files confirmed results =>
      if files.length = 0 then
        { success := false, error := some "No files found matching the criteria" }
      else if !confirmed then
        { success := false, error := some "Batch edit cancelled by user" }
      else formatResults results

/-- Helper of `splitLines`: accumulates the current line (reversed) while
scanning the character list, starting a new line at each newline character. -/
def splitLinesAux : List Char → List Char → List String
  | [], acc => [String.mk acc.reverse]
  | c :: cs, acc =>
      if c = '\n' then String.mk acc.reverse :: splitLinesAux cs []
      else splitLinesAux cs (c :: acc)

/-- JS `content.split("\n")`: the list of lines, where the empty string splits
to `[""]` and a trailing newline yields a trailing empty line — exactly the
JS semantics. -/
def splitLines (s : String) : List String :=
  splitLinesAux s.data []

/-- JS `lines.join("\n")`. -/
def joinLines (lines : List String) : String :=
  String.intercalate "\n" lines

/-- Conversion of a JS `slice` index argument to a character position: a
negative index counts from the end (clamped at 0), a non-negative one is
clamped to the length. -/
def jsSliceIndex (len : Nat) (i : Int) : Nat :=
  if i < 0 then ((len : Int) + i).toNat else min i.toNat len

/-- The `position` parameter of an insert operation (`batch-editor.ts` line
30): the strings `start` or `end`, or a `{line, character}` object. -/
inductive InsertPosition where
  | posStart
  | posEnd
  | posAt (line : Int) (character : Int)

/-- `BatchEditorTool.applyDelete` (`batch-editor.ts` lines 389-409): with
either bound absent the content is returned unchanged; a negative bound, a
bound at or past the number of lines, or `startLine > endLine` is an invalid
range returning the content unchanged; otherwise the lines
`startLine..endLine` are spliced out and the rest rejoined. -/
def applyDelete (content : String) (startLine endLine : Option Int) : String :=
  match startLine, endLine with
  | some s, some e =>
      let lines := splitLines content
      if s < 0 ∨ e < 0 ∨ s ≥ (lines.length : Int) ∨ e ≥ (lines.length : Int) ∨ s > e then
        content
      else
        joinLines (lines.take s.toNat ++ lines.drop (e.toNat + 1))
  | _, _ => content

/-- `BatchEditorTool.applyInsert` (`batch-editor.ts` lines 364-387): a falsy
`content` parameter is a no-op; position `start` or `end` prepends or appends
with a newline separator; an object position with a line outside `[0, number
of lines)` returns the content unchanged; a valid object position splices the
inserted text into that line at the (slice-converted) character index; an
absent position falls through unchanged. -/
def applyInsert (content : String) (pContent : Option String)
    (position : Option InsertPosition) : String :=
  if strFalsy pContent then content
  else
    let c := pContent.getD ""
    let lines := splitLines content
    match position with
    | some .posStart => c ++ "\n" ++ content
    | some .posEnd => content ++ "\n" ++ c
    | some (.posAt line character) =>
        if line < 0 ∨ line ≥ (lines.length : Int) then
          content
        else
          let targetLine := lines.getD line.toNat ""
          let idx := jsSliceIndex targetLine.length character
          let newLine :=
            (targetLine.data.take idx).asString ++ c ++ (targetLine.data.drop idx).asString
          joinLines (lines.set line.toNat newLine)
    | none => content

/-- Backup metadata (`BackupMetadata` in the backup manager): original path,
backup file path, timestamp, size, and the stored SHA-256 checksum (hex). -/
structure BackupMetadata where
  originalPath : String
  backupPath : String
  timestamp : Nat
  size : Nat
  checksum : String
deriving DecidableEq

/-- State the backup manager operates on: the file system contents (path to
file content; an absent path makes reads throw) and the in-memory backup
index (original path to its backup list). -/
structure BackupState where
  files : String → Option String
  backupIndex : String → Option (List BackupMetadata)

/-- The `backups[0]` pick after `backups.sort((a, b) => b.timestamp -
a.timestamp)` (`restoreBackup` lines 165-167): head of the list stably sorted
by descending timestamp. -/
def latestBackup (backups : List BackupMetadata) : Option BackupMetadata :=
  (backups.mergeSort (fun a b => decide (b.timestamp ≤ a.timestamp))).head?

/-- Backup selection in `restoreBackup` (lines 155-168): a truthy
`backupTimestamp` (present and non-zero, since `0` is falsy in JS) selects by
`find`, failing when absent from the list; otherwise the most recent backup
is used. -/
def selectBackup (backups : List BackupMetadata) (backupTimestamp : Option Nat) :
    Option BackupMetadata :=
  match backupTimestamp with
  | some t =>
      if t ≠ 0 then backups.find? (fun b => b.timestamp == t)
      else latestBackup backups
  | none => latestBackup backups

/-- `BackupManager.restoreBackup` (`part_003` lines 145-188), with the SHA-256
`computeChecksum` abstracted as the `hash` parameter and `path.resolve`
modelled as the identity (paths are taken already resolved).  An absent or
empty backup list, a missing timestamped backup, an unreadable backup file
(the caught `readFile` throw), or a checksum mismatch each return `false`
with the state untouched; only a matching checksum writes the backup content
to the target path and returns `true`. -/
def restoreBackup (hash : String → String) (st : BackupState) (filePath : String)
    (backupTimestamp : Option Nat) : Bool × BackupState :=
  match st.backupIndex filePath with
  | none => (false, st)
  | some backups =>
      if backups.length = 0 then (false, st)
      else
        match selectBackup backups backupTimestamp with
        | none => (false, st)
        | some backup =>
            match st.files backup.backupPath with
            | none => (false, st)
            | some content =>
                if hash content ≠ backup.checksum then (false, st)
                else
                  (true,
                    { st with
                      files := fun p => if p = filePath then some content else st.files p })

/-- A string append is nonempty when its left part is. -/
theorem append_length_pos_left {a : String} (b : String) (h : 0 < a.length) :
    0 < (a ++ b).length := by
  rw [String.length_append]; omega

/-- Character-list test used to state that an error message names the
incompatibility: does the second list occur as a prefix of the first. -/
def hasPrefixChars : List Char → List Char → Bool
  | _, [] => true
  | [], _ :: _ => false
  | a :: as, b :: bs => a == b && hasPrefixChars as bs

/-- Character-list test: does the second list occur contiguously anywhere in
the first. -/
def hasSubstrChars : List Char → List Char → Bool
  | [], sub => sub.isEmpty
  | c :: rest, sub => hasPrefixChars (c :: rest) sub || hasSubstrChars rest sub

/-- C2: for every transport configuration whose kind field is absent or not
one of the recognized kinds (stdio, http, sse, streamable_http),
`createTransport` fails immediately with an error and produces no default
transport. -/
theorem createTransport_unrecognized_kind_fails (config : TransportConfig)
    (h : ∀ s, config.type = some s → s ∉ ["stdio", "http", "sse", "streamable_http"]) :
    ∃ e, createTransport config = Except.error e := by
  have h1 : ¬(config.type = some "stdio") := fun hs => (h _ hs) (by decide)
  have h2 : ¬(config.type = some "http") := fun hs => (h _ hs) (by decide)
  have h3 : ¬(config.type = some "sse") := fun hs => (h _ hs) (by decide)
  have h4 : ¬(config.type = some "streamable_http") := fun hs => (h _ hs) (by decide)
  exact ⟨"Unsupported transport type: " ++ typeText config.type,
    by simp [createTransport, h1, h2, h3, h4]⟩

/-- Witness for C2 at the spec's scenario kind `ftp`. -/
theorem createTransport_unrecognized_kind_fails_witness :
    ∃ e, createTransport { type := some "ftp" } = Except.error e :=
  createTransport_unrecognized_kind_fails { type := some "ftp" }
    (by intro s hs; cases hs; decide)

/-- C3: a stdio configuration without a command, and an http, sse or
streamable_http configuration without a URL, each make `createTransport` fail
at construction time (in the corresponding constructor), before any connect
is attempted. -/
theorem createTransport_missing_field_fails (config : TransportConfig) :
    (config.type = some "stdio" → config.command = none →
      ∃ e, createTransport config = Except.error e)
    ∧ (config.type = some "http" → config.url = none →
      ∃ e, createTransport config = Except.error e)
    ∧ (config.type = some "sse" → config.url = none →
      ∃ e, createTransport config = Except.error e)
    ∧ (config.type = some "streamable_http" → config.url = none →
      ∃ e, createTransport config = Except.error e) := by
  refine ⟨fun ht hc => ?_, fun ht hu => ?_, fun ht hu => ?_, fun ht hu => ?_⟩
  · exact ⟨"Command is required for stdio transport",
      by simp [createTransport, ht, mkStdioTransport, strFalsy, hc]⟩
  · exact ⟨"URL is required for HTTP transport",
      by simp [createTransport, ht, mkHttpTransport, strFalsy, hu]⟩
  · exact ⟨"URL is required for SSE transport",
      by simp [createTransport, ht, mkSSETransport, strFalsy, hu]⟩
  · exact ⟨"URL is required for streamable_http transport",
      by simp [createTransport, ht, mkStreamableHttpTransport, strFalsy, hu]⟩

/-- Witness for C3: each of the four kinds with its required field omitted. -/
theorem createTransport_missing_field_fails_witness :
    (∃ e, createTransport { type := some "stdio" } = Except.error e)
    ∧ (∃ e, createTransport { type := some "http" } = Except.error e)
    ∧ (∃ e, createTransport { type := some "sse" } = Except.error e)
    ∧ (∃ e, createTransport { type := some "streamable_http" } = Except.error e) :=
  ⟨(createTransport_missing_field_fails { type := some "stdio" }).1 rfl rfl,
   (createTransport_missing_field_fails { type := some "http" }).2.1 rfl rfl,
   (createTransport_missing_field_fails { type := some "sse" }).2.2.1 rfl rfl,
   (createTransport_missing_field_fails { type := some "streamable_http" }).2.2.2 rfl rfl⟩

set_option maxRecDepth 4000 in
/-- C4: for every message, `StreamableHttpClientTransport.send` fails at call
time with the fixed non-empty incompatibility error — which names the
incompatibility (it contains the words `not compatible`) — and never returns
a response, so a request is neither served, hung, nor silently dropped. -/
theorem streamableHttpSend_always_incompat (message : String) :
    streamableHttpClientSend message = Except.error streamableHttpIncompatMsg
    ∧ 0 < streamableHttpIncompatMsg.length
    ∧ hasSubstrChars streamableHttpIncompatMsg.data "not compatible".data = true :=
  ⟨rfl, by decide, by decide⟩

/-- C7: for every prior state and every health-probe outcome,
`HttpTransport.connect` returns a channel (never throws) and marks the
transport connected; `disconnect` leaves only the cleared flag and no client
— no persistent socket state. -/
theorem httpConnect_never_fails (st : HttpTransportState) (config : TransportConfig)
    (health : Except String Unit) :
    httpConnect st config health =
      Except.ok ({ connected := true, hasClient := true }, { baseURL := config.url })
    ∧ httpDisconnect st = { connected := false, hasClient := false } := by
  refine ⟨?_, rfl⟩
  cases health <;> rfl

/-- C8: the count sent to the search API defaults to 10 and is clamped into
`[1, 50]`: values below 1 become 1, values above 50 become 50, and in-range
values pass through unchanged. -/
theorem webSearchCount_clamped (query : String) (o : WebSearchOptions) (c : Int) :
    (o.count = none → (buildWebSearchRequestBody query o).count = 10)
    ∧ (o.count = some c → c < 1 → (buildWebSearchRequestBody query o).count = 1)
    ∧ (o.count = some c → 50 < c → (buildWebSearchRequestBody query o).count = 50)
    ∧ (o.count = some c → 1 ≤ c → c ≤ 50 →
        (buildWebSearchRequestBody query o).count = c) := by
  refine ⟨fun h => ?_, fun h h1 => ?_, fun h h1 => ?_, fun h h1 h2 => ?_⟩ <;>
    simp [buildWebSearchRequestBody, h] <;> omega

/-- Witness for C8 at counts 0, 100, 7 and the omitted default. -/
theorem webSearchCount_clamped_witness :
    (buildWebSearchRequestBody "q" {}).count = 10
    ∧ (buildWebSearchRequestBody "q" { count := some 0 }).count = 1
    ∧ (buildWebSearchRequestBody "q" { count := some 100 }).count = 50
    ∧ (buildWebSearchRequestBody "q" { count := some 7 }).count = 7 :=
  ⟨(webSearchCount_clamped "q" {} 0).1 rfl,
   (webSearchCount_clamped "q" { count := some 0 } 0).2.1 rfl (by decide),
   (webSearchCount_clamped "q" { count := some 100 } 100).2.2.1 rfl (by decide),
   (webSearchCount_clamped "q" { count := some 7 } 7).2.2.2 rfl (by decide) (by decide)⟩

/-- Counterexample to C6: a stdio configuration whose env sets `DEBUG` to
`x`; the environment propagated to the subprocess maps `DEBUG` to the
hardcoded empty string, not to the caller-specified value. -/
theorem stdioSpawnEnv_override_counterexample :
    (stdioConnect
        { type := some "stdio", command := some "node",
          env := fun k => if k = "DEBUG" then some "x" else none }
        (fun _ => none)).env "DEBUG" = some ""
    ∧ ((fun k => if k = "DEBUG" then some ("x" : String) else none) "DEBUG" = some "x")
    ∧ ("" : String) ≠ "x" :=
  ⟨by decide, by decide, by decide⟩

/-- C6 (amended): the environment propagated to the spawned subprocess is the
merge of the inherited environment with the caller-specified variables, with
caller-specified values overriding inherited ones, except for the four
hardcoded suppression keys `MCP_REMOTE_QUIET`, `MCP_REMOTE_SILENT`, `DEBUG`
and `NODE_ENV`, which are appended last in the spread and therefore override
both the caller-specified and inherited values. -/
theorem stdioSpawnEnv_merge (config : TransportConfig)
    (inherited : String → Option String) (k : String) :
    (k ∉ ["MCP_REMOTE_QUIET", "MCP_REMOTE_SILENT", "DEBUG", "NODE_ENV"] →
      (stdioConnect config inherited).env k =
        match config.env k with
        | some v => some v
        | none => inherited k)
    ∧ (stdioConnect config inherited).env "MCP_REMOTE_QUIET" = some "1"
    ∧ (stdioConnect config inherited).env "MCP_REMOTE_SILENT" = some "1"
    ∧ (stdioConnect config inherited).env "DEBUG" = some ""
    ∧ (stdioConnect config inherited).env "NODE_ENV" = some "production" := by
  refine ⟨fun hk => ?_, ?_, ?_, ?_, ?_⟩
  · simp only [List.mem_cons, List.not_mem_nil, or_false, not_or] at hk
    obtain ⟨h1, h2, h3, h4⟩ := hk
    simp [stdioConnect, stdioSpawnEnv, h1, h2, h3, h4]
  · simp [stdioConnect, stdioSpawnEnv]
  · simp [stdioConnect, stdioSpawnEnv]
  · simp [stdioConnect, stdioSpawnEnv]
  · simp [stdioConnect, stdioSpawnEnv]

/-- Witness for C6 (amended): a caller-specified `PATH` overrides the
inherited `PATH` in the propagated environment. -/
theorem stdioSpawnEnv_merge_witness :
    (stdioConnect
        { type := some "stdio", command := some "node",
          env := fun k => if k = "PATH" then some "/custom" else none }
        (fun k => if k = "PATH" then some "/inherited" else none)).env "PATH"
      = some "/custom" := by
  have h := (stdioSpawnEnv_merge
      { type := some "stdio", command := some "node",
        env := fun k => if k = "PATH" then some "/custom" else none }
      (fun k => if k = "PATH" then some "/inherited" else none) "PATH").1 (by decide)
  exact h.trans (by decide)

/-- The built-in server names are distinct, whatever the key state. -/
theorem getZaiBuiltInServers_names_nodup (zaiApiKey : Option String) :
    ((getZaiBuiltInServers zaiApiKey).map MCPServerConfig.name).Nodup := by
  unfold getZaiBuiltInServers
  split
  · simp
  · simp

/-- Counterexample to C1: with `ZAI_API_KEY` present but set to the empty
string, the variable is set yet `loadMCPConfig` registers no built-in server
(the code tests JS truthiness, and the empty string is falsy). -/
theorem loadMCPConfig_empty_key_counterexample :
    (some "" : Option String).isSome = true
    ∧ (loadMCPConfig [] (some "")).servers = [] :=
  ⟨rfl, rfl⟩

/-- C1 (amended): for every project-settings state and every environment,
`loadMCPConfig` returns the user-configured servers followed by the two
built-in servers `zai-zread` and `zai-web-search` exactly when `ZAI_API_KEY`
is set to a non-empty value; a built-in server is omitted whenever a
user-configured server of the same name exists, so (given the user servers
are distinctly named, as `Object.values` of a name-keyed record) no server
name appears twice and the user's configuration is the one kept. -/
theorem loadMCPConfig_combines (userServers : List MCPServerConfig)
    (zaiApiKey : Option String) :
    (strFalsy zaiApiKey = false →
      (loadMCPConfig userServers zaiApiKey).servers =
        userServers ++ (getZaiBuiltInServers zaiApiKey).filter
          (fun s => !((userServers.map MCPServerConfig.name).contains s.name))
      ∧ (getZaiBuiltInServers zaiApiKey).map MCPServerConfig.name =
          ["zai-zread", "zai-web-search"])
    ∧ (strFalsy zaiApiKey = true →
        (loadMCPConfig userServers zaiApiKey).servers = userServers)
    ∧ ((userServers.map MCPServerConfig.name).Nodup →
        ((loadMCPConfig userServers zaiApiKey).servers.map MCPServerConfig.name).Nodup) := by
  refine ⟨fun hk => ⟨rfl, ?_⟩, fun hk => ?_, fun hnd => ?_⟩
  · unfold getZaiBuiltInServers
    rw [if_neg (by simp [hk])]
    simp
  · simp [loadMCPConfig, getZaiBuiltInServers, hk]
  · have hmap : (loadMCPConfig userServers zaiApiKey).servers.map MCPServerConfig.name =
        userServers.map MCPServerConfig.name ++
          ((getZaiBuiltInServers zaiApiKey).filter
            (fun s => !((userServers.map MCPServerConfig.name).contains s.name))).map
              MCPServerConfig.name := by
      simp [loadMCPConfig]
    rw [hmap, List.nodup_append]
    refine ⟨hnd, ?_, ?_⟩
    · exact (getZaiBuiltInServers_names_nodup zaiApiKey).sublist
        ((List.filter_sublist _).map MCPServerConfig.name)
    · intro a ha hb
      obtain ⟨s, hs, hname⟩ := List.mem_map.1 hb
      obtain ⟨hsmem, hskeep⟩ := List.mem_filter.1 hs
      rw [Bool.not_eq_true'] at hskeep
      have : s.name ∉ userServers.map MCPServerConfig.name := by
        simpa using hskeep
      exact this (hname ▸ ha)

/-- Witness for C1 (amended): one user server shadowing `zai-zread`; the
result keeps the user server and adds only the `zai-web-search` built-in. -/
theorem loadMCPConfig_combines_witness :
    (loadMCPConfig [{ name := "zai-zread", transport := { type := some "stdio" } }]
        (some "k")).servers.map MCPServerConfig.name = ["zai-zread", "zai-web-search"] := by
  have h := (loadMCPConfig_combines
      [{ name := "zai-zread", transport := { type := some "stdio" } }] (some "k")).1 rfl
  rw [h.1]
  decide


/-- The batch summary output string is never empty (it starts with the
`Batch Edit Complete` header). -/
theorem formatResultsOutput_pos (results : List BatchEditResult) :
    0 < (formatResultsOutput results).length := by
  dsimp only [formatResultsOutput]
  repeat apply append_length_pos_left
  decide

/-- Counterexample to C5: a confirmed batch edit over one file whose edit
failed; `batchEdit` aggregates it through `formatResults` into a result with
`success = false` and no error string at all (the failure details go to the
output string only). -/
theorem batchEdit_failed_file_counterexample :
    (batchEdit (.runs ["a.ts"] true
        [{ file := "a.ts", success := false, error := some "boom" }])).success = false
    ∧ (batchEdit (.runs ["a.ts"] true
        [{ file := "a.ts", success := false, error := some "boom" }])).error = none :=
  ⟨rfl, rfl⟩

/-- C5 (amended): neither tool ever raises past its boundary (both are total
functions into `ToolResult`); every success carries an output string; every
failure of `WebSearchTool.search` carries a non-empty error string; every
failure of `BatchEditorTool.batchEdit` carries a non-empty error string,
except when the batch ran and some per-file edit failed, in which case
`success = false` with the failure details in a non-empty output string and
no error field. -/
theorem toolResult_failure_shape (apiKey query : String) (options : WebSearchOptions)
    (fetch : WebSearchRequestBody → FetchOutcome) (run : BatchRun) :
    (((webSearch apiKey query options fetch).success = true →
        (webSearch apiKey query options fetch).output ≠ none)
    ∧ ((webSearch apiKey query options fetch).success = false →
        ∃ e, (webSearch apiKey query options fetch).error = some e ∧ 0 < e.length))
    ∧ (((batchEdit run).success = true → (batchEdit run).output ≠ none)
    ∧ ((batchEdit run).success = false →
        (∃ e, (batchEdit run).error = some e ∧ 0 < e.length)
        ∨ ((batchEdit run).error = none
            ∧ ∃ o, (batchEdit run).output = some o ∧ 0 < o.length))) := by
  constructor
  · by_cases hk : apiKey = ""
    · refine ⟨fun hs => ?_, fun _ => ?_⟩
      · simp [webSearch, hk] at hs
      · exact ⟨"ZAI_API_KEY is required for web search. Set it in your environment.",
          by simp [webSearch, hk], by decide⟩
    · cases hf : fetch (buildWebSearchRequestBody query options) with
      | throws msg =>
          refine ⟨fun hs => ?_, fun _ => ?_⟩
          · simp [webSearch, hk, hf] at hs
          · exact ⟨"Web search error: " ++ msg,
              by simp [webSearch, hk, hf],
              append_length_pos_left msg (by decide)⟩
      | notOk status body =>
          refine ⟨fun hs => ?_, fun _ => ?_⟩
          · simp [webSearch, hk, hf] at hs
          · refine ⟨"Web search failed (" ++ toString status ++ "): " ++ body,
              by simp [webSearch, hk, hf], ?_⟩
            repeat apply append_length_pos_left
            decide
      | ok searchResult requestId =>
          match searchResult with
          | none =>
              refine ⟨fun _ => ?_, fun hs => ?_⟩
              · simp [webSearch, hk, hf]
              · simp [webSearch, hk, hf] at hs
          | some [] =>
              refine ⟨fun _ => ?_, fun hs => ?_⟩
              · simp [webSearch, hk, hf]
              · simp [webSearch, hk, hf] at hs
          | some (r :: rs) =>
              refine ⟨fun _ => ?_, fun hs => ?_⟩
              · simp [webSearch, hk, hf]
              · simp [webSearch, hk, hf] at hs
  · cases run with
    | throws msg =>
        refine ⟨fun hs => ?_, fun _ => ?_⟩
        · simp [batchEdit] at hs
        · exact Or.inl ⟨"Batch edit failed: " ++ msg,
            by simp [batchEdit],
            append_length_pos_left msg (by decide)⟩
    | runs files confirmed results =>
        by_cases hfl : files.length = 0
        · refine ⟨fun hs => ?_, fun _ => ?_⟩
          · simp [batchEdit, hfl] at hs
          · exact Or.inl ⟨"No files found matching the criteria",
              by simp [batchEdit, hfl], by decide⟩
        · cases confirmed with
          | false =>
              refine ⟨fun hs => ?_, fun _ => ?_⟩
              · simp [batchEdit, hfl] at hs
              · exact Or.inl ⟨"Batch edit cancelled by user",
                  by simp [batchEdit, hfl], by decide⟩
          | true =>
              have hred : batchEdit (.runs files true results) = formatResults results := by
                simp [batchEdit, hfl]
              refine ⟨fun _ => ?_, fun _ => ?_⟩
              · rw [hred]; simp [formatResults]
              · rw [hred]
                exact Or.inr ⟨rfl, formatResultsOutput results, rfl,
                  formatResultsOutput_pos results⟩

/-- Witness for C5 (amended): the missing-key failure path of the web-search
tool carries a non-empty error string. -/
theorem toolResult_failure_shape_witness :
    ∃ e, (webSearch "" "q" {} (fun _ => FetchOutcome.ok none none)).error = some e
      ∧ 0 < e.length :=
  (toolResult_failure_shape "" "q" {} (fun _ => FetchOutcome.ok none none)
    (BatchRun.throws "x")).1.2 rfl

/-- No backup can be selected from an empty backup list. -/
theorem selectBackup_nil (ts : Option Nat) : selectBackup [] ts = none := by
  unfold selectBackup latestBackup
  cases ts with
  | none => simp [List.mergeSort_nil]
  | some t =>
      by_cases ht : t ≠ 0
      · simp [ht]
      · simp [ht, List.mergeSort_nil]

/-- C9: whenever the stored checksum differs from the checksum recomputed
from the backup file's content, `restoreBackup` returns `false` and leaves
the state (in particular the target file) untouched; and it returns `true`
only when the recomputed checksum matches, in which case the backup content
has been written to the target path. -/
theorem restoreBackup_checksum_guard (hash : String → String) (st : BackupState)
    (filePath : String) (ts : Option Nat) :
    (∀ backups b content,
        st.backupIndex filePath = some backups →
        selectBackup backups ts = some b →
        st.files b.backupPath = some content →
        hash content ≠ b.checksum →
        restoreBackup hash st filePath ts = (false, st))
    ∧ ((restoreBackup hash st filePath ts).1 = true →
        ∃ backups b content,
          st.backupIndex filePath = some backups
          ∧ selectBackup backups ts = some b
          ∧ st.files b.backupPath = some content
          ∧ hash content = b.checksum
          ∧ (restoreBackup hash st filePath ts).2.files filePath = some content) := by
  constructor
  · intro backups b content h1 h2 h3 h4
    have hne : ¬(backups.length = 0) := by
      intro hlen
      rw [List.length_eq_zero] at hlen
      subst hlen
      rw [selectBackup_nil] at h2
      exact Option.noConfusion h2
    simp only [restoreBackup, h1]
    rw [if_neg hne]
    simp only [h2, h3]
    rw [if_pos h4]
  · intro h
    cases hidx : st.backupIndex filePath with
    | none => simp [restoreBackup, hidx] at h
    | some backups =>
        by_cases hlen : backups.length = 0
        · simp [restoreBackup, hidx, hlen] at h
        · cases hsel : selectBackup backups ts with
          | none => simp [restoreBackup, hidx, hlen, hsel] at h
          | some b =>
              cases hread : st.files b.backupPath with
              | none => simp [restoreBackup, hidx, hlen, hsel, hread] at h
              | some content =>
                  by_cases hck : hash content = b.checksum
                  · refine ⟨backups, b, content, rfl, hsel, hread, hck, ?_⟩
                    have hres : restoreBackup hash st filePath ts =
                        (true, { st with files := fun p =>
                          if p = filePath then some content else st.files p }) := by
                      simp only [restoreBackup, hidx]
                      rw [if_neg hlen]
                      simp only [hsel, hread]
                      rw [if_neg (by simp [hck])]
                    rw [hres]
                    simp
                  · have : restoreBackup hash st filePath ts = (false, st) := by
                      simp only [restoreBackup, hidx]
                      rw [if_neg hlen]
                      simp only [hsel, hread]
                      rw [if_pos hck]
                    rw [this] at h
                    simp at h

/-- Witness for C9: a stored checksum `WRONG` differing from the recomputed
one makes the restore fail and leave the target file absent as before. -/
theorem restoreBackup_checksum_guard_witness :
    (restoreBackup (fun s => s)
        { files := fun p => if p = "bak1" then some "hello" else none,
          backupIndex := fun p =>
            if p = "f.txt" then
              some [{ originalPath := "f.txt", backupPath := "bak1", timestamp := 5,
                      size := 5, checksum := "WRONG" }]
            else none }
        "f.txt" (some 5)).1 = false := by
  rw [(restoreBackup_checksum_guard (fun s => s)
      { files := fun p => if p = "bak1" then some "hello" else none,
        backupIndex := fun p =>
          if p = "f.txt" then
            some [{ originalPath := "f.txt", backupPath := "bak1", timestamp := 5,
                    size := 5, checksum := "WRONG" }]
          else none }
      "f.txt" (some 5)).1
    [{ originalPath := "f.txt", backupPath := "bak1", timestamp := 5, size := 5,
       checksum := "WRONG" }]
    { originalPath := "f.txt", backupPath := "bak1", timestamp := 5, size := 5,
      checksum := "WRONG" }
    "hello" (by decide) (by decide) (by decide) (by decide)]

/-- C10: a delete operation with a negative bound, a bound at or past the
number of lines, or `startLine > endLine`, and an insert at an object
position whose line is negative or at or past the number of lines, each
return the content unchanged — invalid positions are total no-ops (the
embedded operations are total functions, so no exception is possible). -/
theorem applyDelete_applyInsert_invalid_noop (content : String) (s e : Int)
    (c : String) (line ch : Int) :
    ((s < 0 ∨ e < 0 ∨ s ≥ ((splitLines content).length : Int)
        ∨ e ≥ ((splitLines content).length : Int) ∨ s > e) →
      applyDelete content (some s) (some e) = content)
    ∧ ((line < 0 ∨ line ≥ ((splitLines content).length : Int)) →
      applyInsert content (some c) (some (.posAt line ch)) = content) := by
  constructor
  · intro h
    simp only [applyDelete]
    rw [if_pos h]
  · intro h
    by_cases hc : strFalsy (some c) = true
    · simp only [applyInsert]
      rw [if_pos hc]
    · simp only [applyInsert]
      rw [if_neg hc]
      rw [if_pos h]

/-- Witness for C10: a negative delete bound and a past-the-end insert line
on a two-line content. -/
theorem applyDelete_applyInsert_invalid_noop_witness :
    applyDelete "a\nb" (some (-1)) (some 0) = "a\nb"
    ∧ applyInsert "a\nb" (some "X") (some (.posAt 5 0)) = "a\nb" :=
  ⟨(applyDelete_applyInsert_invalid_noop "a\nb" (-1) 0 "X" 5 0).1 (by decide),
   (applyDelete_applyInsert_invalid_noop "a\nb" (-1) 0 "X" 5 0).2 (by decide)⟩
